import Mathlib

/-!
# vectornav: serial link negotiation and binary frame decoding

A shallow embedding of `src/main.cpp`:

* `BinaryAsyncMessageReceived` (lines 154-267), the callback that validates a
  binary packet, unpacks its payload and publishes up to five ROS messages;
* `main` (lines 53-148), the start-up sequence that probes the sensor at the
  requested baud rate, falls back to the default rate, reconfigures the sensor
  and then configures and registers the callback.

The VectorNav library (`vn/sensors.h`) and ROS are not part of the source
file.  Their constants are taken as parameters (`VnConstants`), the sensor
object is taken as a parameter (`VnSensor`), and the packet accessors and the
accounting of port handles are modelled from the specification.
-/

namespace Vectornav

/-! ## Packets -/

/-- Values of the library enumerators used by the program (declared in the
VectorNav headers, not in `main.cpp`); taken as parameters. -/
structure VnConstants where
  COMMONGROUP_TIMESTARTUP : Nat
  COMMONGROUP_QUATERNION : Nat
  COMMONGROUP_ANGULARRATE : Nat
  COMMONGROUP_POSITION : Nat
  COMMONGROUP_ACCEL : Nat
  COMMONGROUP_MAGPRES : Nat
  TIMEGROUP_NONE : Nat
  IMUGROUP_NONE : Nat
  GPSGROUP_NONE : Nat
  ATTITUDEGROUP_NONE : Nat
  INSGROUP_NONE : Nat
  ASYNCMODE_PORT1 : Nat
  deriving DecidableEq

/-- The common-group mask written at lines 127 and 162:
`TIMESTARTUP | QUATERNION | ANGULARRATE | POSITION | ACCEL | MAGPRES`. -/
def VnConstants.commonMask (k : VnConstants) : Nat :=
  k.COMMONGROUP_TIMESTARTUP ||| k.COMMONGROUP_QUATERNION ||| k.COMMONGROUP_ANGULARRATE
    ||| k.COMMONGROUP_POSITION ||| k.COMMONGROUP_ACCEL ||| k.COMMONGROUP_MAGPRES

/-- Type marker of a packet (`Packet::Type`). -/
inductive PacketType where
  | TYPE_UNKNOWN
  | TYPE_BINARY
  | TYPE_ASCII
  deriving DecidableEq

/-- A packet as delivered to the callback: its type marker, the six field-group
selectors declared in its header, the payload bytes that follow the header and
the extraction cursor (an offset into the payload). -/
structure Packet where
  type : PacketType
  commonGroup : Nat
  timeGroup : Nat
  imuGroup : Nat
  gpsGroup : Nat
  attitudeGroup : Nat
  insGroup : Nat
  payload : List Nat
  curExtractLoc : Nat
  deriving DecidableEq

/-- Modelled from the spec: `Packet::isCompatible` is library code; the spec
says a frame is accepted only if "its declared field-group composition exactly
equals" the expected one. -/
def Packet.isCompatible (p : Packet) (commonGroup timeGroup imuGroup gpsGroup attitudeGroup
    insGroup : Nat) : Bool :=
  p.commonGroup == commonGroup && p.timeGroup == timeGroup && p.imuGroup == imuGroup
    && p.gpsGroup == gpsGroup && p.attitudeGroup == attitudeGroup && p.insGroup == insGroup

/-- The payload byte `i` places after the cursor.  Offsets past the end of the
payload read as 0; no result below depends on that choice. -/
def Packet.byteAt (p : Packet) (i : Nat) : Nat :=
  p.payload.getD (p.curExtractLoc + i) 0 % 256

/-- Move the cursor `n` bytes forward. -/
def Packet.advance (p : Packet) (n : Nat) : Packet :=
  { p with curExtractLoc := p.curExtractLoc + n }

/-- Little-endian value of the 4 bytes at the cursor. -/
def Packet.peek32 (p : Packet) : Nat :=
  p.byteAt 0 + p.byteAt 1 * 2 ^ 8 + p.byteAt 2 * 2 ^ 16 + p.byteAt 3 * 2 ^ 24

/-- Little-endian value of the 8 bytes at the cursor. -/
def Packet.peek64 (p : Packet) : Nat :=
  p.peek32 + (p.advance 4).peek32 * 2 ^ 32

/-- Three `float` components, `v[0]` .. `v[2]`.  A `float` is represented by
its 32-bit pattern, a `double` read from the wire by its 64-bit pattern. -/
structure vec3f where
  c0 : Nat
  c1 : Nat
  c2 : Nat
  deriving DecidableEq

/-- Four `float` components, `q[0]` .. `q[3]`. -/
structure vec4f where
  c0 : Nat
  c1 : Nat
  c2 : Nat
  c3 : Nat
  deriving DecidableEq

/-- Three `double` components, `lla[0]` .. `lla[2]`. -/
structure vec3d where
  c0 : Nat
  c1 : Nat
  c2 : Nat
  deriving DecidableEq

/-- Modelled from the spec: `Packet::extractUint64` is library code; the spec
gives the wire layout as fixed-width little-endian fields read in order. -/
def Packet.extractUint64 (p : Packet) : Nat × Packet :=
  (p.peek64, p.advance 8)

/-- Modelled from the spec: `Packet::extractFloat`, a 32-bit little-endian
field; the result is the bit pattern of the `float`. -/
def Packet.extractFloat (p : Packet) : Nat × Packet :=
  (p.peek32, p.advance 4)

/-- Modelled from the spec: `Packet::extractVec3f`, three consecutive 32-bit
fields. -/
def Packet.extractVec3f (p : Packet) : vec3f × Packet :=
  let (x, p) := p.extractFloat
  let (y, p) := p.extractFloat
  let (z, p) := p.extractFloat
  (⟨x, y, z⟩, p)

/-- Modelled from the spec: `Packet::extractVec4f`, four consecutive 32-bit
fields. -/
def Packet.extractVec4f (p : Packet) : vec4f × Packet :=
  let (x, p) := p.extractFloat
  let (y, p) := p.extractFloat
  let (z, p) := p.extractFloat
  let (w, p) := p.extractFloat
  (⟨x, y, z, w⟩, p)

/-- Modelled from the spec: `Packet::extractVec3d`, three consecutive 64-bit
fields. -/
def Packet.extractVec3d (p : Packet) : vec3d × Packet :=
  let (x, p) := p.extractUint64
  let (y, p) := p.extractUint64
  let (z, p) := p.extractUint64
  (⟨x, y, z⟩, p)

/-! ## ROS messages -/

/-- A `float64` message field.  `ofBits b` is the double with bit pattern `b`;
`ofFloat b` is the double obtained by the implicit `float` to `double`
conversion of the float with bit pattern `b` (the conversion is exact, so the
field carries the value of that float). -/
inductive Double where
  | ofBits (bits : Nat)
  | ofFloat (bits : Nat)
  deriving DecidableEq

/-- The message header `std_msgs/Header` as far as the callback fills it. -/
structure Header where
  stamp : Nat
  frame_id : String
  deriving DecidableEq

/-- A `geometry_msgs/Quaternion`. -/
structure Quaternion where
  x : Double
  y : Double
  z : Double
  w : Double
  deriving DecidableEq

/-- A `geometry_msgs/Vector3`. -/
structure Vector3 where
  x : Double
  y : Double
  z : Double
  deriving DecidableEq

/-- The fields of `sensor_msgs/Imu` assigned by the callback (the covariance
arrays are never written and keep their default). -/
structure Imu where
  header : Header
  orientation : Quaternion
  angular_velocity : Vector3
  linear_acceleration : Vector3
  deriving DecidableEq

/-- The fields of `sensor_msgs/MagneticField` assigned by the callback. -/
structure MagneticField where
  header : Header
  magnetic_field : Vector3
  deriving DecidableEq

/-- The fields of `sensor_msgs/NavSatFix` assigned by the callback. -/
structure NavSatFix where
  header : Header
  latitude : Double
  longitude : Double
  altitude : Double
  deriving DecidableEq

/-- The fields of `sensor_msgs/Temperature` assigned by the callback. -/
structure Temperature where
  header : Header
  temperature : Double
  deriving DecidableEq

/-- The fields of `sensor_msgs/FluidPressure` assigned by the callback. -/
structure FluidPressure where
  header : Header
  fluid_pressure : Double
  deriving DecidableEq

/-- The five publishers `pubIMU`, `pubMag`, `pubGPS`, `pubTemp`, `pubPres`. -/
inductive Channel where
  | pubIMU
  | pubMag
  | pubGPS
  | pubTemp
  | pubPres
  deriving DecidableEq

/-- One call of `publish` on one of the five publishers. -/
inductive Published where
  | imu (msg : Imu)
  | mag (msg : MagneticField)
  | gps (msg : NavSatFix)
  | temp (msg : Temperature)
  | pres (msg : FluidPressure)
  deriving DecidableEq

/-- The publisher a message was published on. -/
def Published.channel : Published → Channel
  | .imu _ => .pubIMU
  | .mag _ => .pubMag
  | .gps _ => .pubGPS
  | .temp _ => .pubTemp
  | .pres _ => .pubPres

/-- What the callback reads from its surroundings at one invocation: the
subscriber count of each publisher, the clock and the global `frame_id`. -/
structure RosState where
  getNumSubscribers : Channel → Nat
  now : Nat
  frame_id : String

/-! ## The callback -/

/-- The callback `BinaryAsyncMessageReceived` of `main.cpp`, lines 154-267.
The result is the list of `publish` calls it makes, in program order. -/
def BinaryAsyncMessageReceived (k : VnConstants) (ros : RosState) (p : Packet) :
    List Published :=
  if p.type = PacketType.TYPE_BINARY then
    if !p.isCompatible k.commonMask k.TIMEGROUP_NONE k.IMUGROUP_NONE k.GPSGROUP_NONE
        k.ATTITUDEGROUP_NONE k.INSGROUP_NONE then
      []
    else
      -- Unpack the packet
      let (_timeStartup, p) := p.extractUint64
      let (q, p) := p.extractVec4f
      let (ar, p) := p.extractVec3f
      let (lla, p) := p.extractVec3d
      let (al, p) := p.extractVec3f
      let (mag, p) := p.extractVec3f
      let (temp, p) := p.extractFloat
      let (pres, _) := p.extractFloat
      -- Publish ROS Message
      let timestamp := ros.now
      let out : List Published := []
      let out :=
        if ros.getNumSubscribers .pubIMU > 0 then
          out ++ [.imu
            { header := ⟨timestamp, ros.frame_id⟩
              orientation := ⟨.ofFloat q.c0, .ofFloat q.c1, .ofFloat q.c2, .ofFloat q.c3⟩
              angular_velocity := ⟨.ofFloat ar.c0, .ofFloat ar.c1, .ofFloat ar.c2⟩
              linear_acceleration := ⟨.ofFloat al.c0, .ofFloat al.c1, .ofFloat al.c2⟩ }]
        else out
      let out :=
        if ros.getNumSubscribers .pubMag > 0 then
          out ++ [.mag
            { header := ⟨timestamp, ros.frame_id⟩
              magnetic_field := ⟨.ofFloat mag.c0, .ofFloat mag.c1, .ofFloat mag.c2⟩ }]
        else out
      let out :=
        if ros.getNumSubscribers .pubGPS > 0 then
          out ++ [.gps
            { header := ⟨timestamp, ros.frame_id⟩
              latitude := .ofBits lla.c0
              longitude := .ofBits lla.c1
              altitude := .ofBits lla.c2 }]
        else out
      let out :=
        if ros.getNumSubscribers .pubTemp > 0 then
          out ++ [.temp { header := ⟨timestamp, ros.frame_id⟩, temperature := .ofFloat temp }]
        else out
      let out :=
        if ros.getNumSubscribers .pubPres > 0 then
          out ++ [.pres { header := ⟨timestamp, ros.frame_id⟩, fluid_pressure := .ofFloat pres }]
        else out
      out
  else
    []

/-- A packet passes the two checks at lines 157-169. -/
def accepted (k : VnConstants) (p : Packet) : Bool :=
  decide (p.type = PacketType.TYPE_BINARY) &&
    p.isCompatible k.commonMask k.TIMEGROUP_NONE k.IMUGROUP_NONE k.GPSGROUP_NONE
      k.ATTITUDEGROUP_NONE k.INSGROUP_NONE

/-- The messages of a publish log that went out on channel `c`. -/
def recordsOn (c : Channel) (log : List Published) : List Published :=
  log.filter (fun m => decide (m.channel = c))

/-- Modelled from the spec: the delivery mechanism (library code) runs the
callback "synchronously and to completion, for each delivered frame before the
next is processed".  Each frame comes with the surroundings at its arrival;
the publish log grows by what the callback publishes. -/
def deliver (k : VnConstants) : List (RosState × Packet) → List Published → List Published
  | [], log => log
  | f :: rest, log => deliver k rest (log ++ BinaryAsyncMessageReceived k f.1 f.2)

/-- The embedded `timeStartup` of a freshly delivered packet: what line 173
extracts. -/
def Packet.timeStartup (p : Packet) : Nat :=
  p.extractUint64.1

/-! ## Frames built to the wire layout -/

/-- The field values of one telemetry frame, floats and doubles as bit
patterns. -/
structure Fields where
  timeStartup : Nat
  q : vec4f
  ar : vec3f
  lla : vec3d
  al : vec3f
  mag : vec3f
  temp : Nat
  pres : Nat
  deriving DecidableEq

/-- The `n` little-endian bytes of `v`. -/
def leBytes : Nat → Nat → List Nat
  | 0, _ => []
  | n + 1, v => v % 256 :: leBytes n (v / 256)

/-- Wire layout as the spec words it: `u64 timeStartup | f32x4 quaternion |
f32x3 angularRate | f64x3 lla | f32x3 accel | f32x3 mag | f32 temperature |
f32 pressure`, little-endian. -/
def encodeFields (v : Fields) : List Nat :=
  leBytes 8 v.timeStartup
    ++ leBytes 4 v.q.c0 ++ leBytes 4 v.q.c1 ++ leBytes 4 v.q.c2 ++ leBytes 4 v.q.c3
    ++ leBytes 4 v.ar.c0 ++ leBytes 4 v.ar.c1 ++ leBytes 4 v.ar.c2
    ++ leBytes 8 v.lla.c0 ++ leBytes 8 v.lla.c1 ++ leBytes 8 v.lla.c2
    ++ leBytes 4 v.al.c0 ++ leBytes 4 v.al.c1 ++ leBytes 4 v.al.c2
    ++ leBytes 4 v.mag.c0 ++ leBytes 4 v.mag.c1 ++ leBytes 4 v.mag.c2
    ++ leBytes 4 v.temp ++ leBytes 4 v.pres

/-- Every field value fits the width of its wire field. -/
def Fields.wellFormed (v : Fields) : Prop :=
  v.timeStartup < 2 ^ 64 ∧
  v.q.c0 < 2 ^ 32 ∧ v.q.c1 < 2 ^ 32 ∧ v.q.c2 < 2 ^ 32 ∧ v.q.c3 < 2 ^ 32 ∧
  v.ar.c0 < 2 ^ 32 ∧ v.ar.c1 < 2 ^ 32 ∧ v.ar.c2 < 2 ^ 32 ∧
  v.lla.c0 < 2 ^ 64 ∧ v.lla.c1 < 2 ^ 64 ∧ v.lla.c2 < 2 ^ 64 ∧
  v.al.c0 < 2 ^ 32 ∧ v.al.c1 < 2 ^ 32 ∧ v.al.c2 < 2 ^ 32 ∧
  v.mag.c0 < 2 ^ 32 ∧ v.mag.c1 < 2 ^ 32 ∧ v.mag.c2 < 2 ^ 32 ∧
  v.temp < 2 ^ 32 ∧ v.pres < 2 ^ 32


/-! ## Reading the callback -/

/-- The values read by lines 173-180, as one record. -/
def unpack (p : Packet) : Fields :=
  let (timeStartup, p) := p.extractUint64
  let (q, p) := p.extractVec4f
  let (ar, p) := p.extractVec3f
  let (lla, p) := p.extractVec3d
  let (al, p) := p.extractVec3f
  let (mag, p) := p.extractVec3f
  let (temp, p) := p.extractFloat
  let (pres, _) := p.extractFloat
  ⟨timeStartup, q, ar, lla, al, mag, temp, pres⟩

/-- The message built for channel `c` from unpacked values (lines 188-264). -/
def messageFor (ros : RosState) (v : Fields) : Channel → Published
  | .pubIMU => .imu
      { header := ⟨ros.now, ros.frame_id⟩
        orientation := ⟨.ofFloat v.q.c0, .ofFloat v.q.c1, .ofFloat v.q.c2, .ofFloat v.q.c3⟩
        angular_velocity := ⟨.ofFloat v.ar.c0, .ofFloat v.ar.c1, .ofFloat v.ar.c2⟩
        linear_acceleration := ⟨.ofFloat v.al.c0, .ofFloat v.al.c1, .ofFloat v.al.c2⟩ }
  | .pubMag => .mag
      { header := ⟨ros.now, ros.frame_id⟩
        magnetic_field := ⟨.ofFloat v.mag.c0, .ofFloat v.mag.c1, .ofFloat v.mag.c2⟩ }
  | .pubGPS => .gps
      { header := ⟨ros.now, ros.frame_id⟩
        latitude := .ofBits v.lla.c0
        longitude := .ofBits v.lla.c1
        altitude := .ofBits v.lla.c2 }
  | .pubTemp => .temp { header := ⟨ros.now, ros.frame_id⟩, temperature := .ofFloat v.temp }
  | .pubPres => .pres { header := ⟨ros.now, ros.frame_id⟩, fluid_pressure := .ofFloat v.pres }

/-- The message for channel `c` if that channel has a subscriber. -/
def gated (ros : RosState) (v : Fields) (c : Channel) : List Published :=
  if 0 < ros.getNumSubscribers c then [messageFor ros v c] else []

/-- A frame of a stream wants channel `c`: the channel has a subscriber when
the frame arrives. -/
def wants (c : Channel) (f : RosState × Packet) : Bool :=
  decide (0 < f.1.getNumSubscribers c)

/-! ## The start-up sequence -/

/-- The arguments of the `BinaryOutputRegister` constructor at lines 124-132. -/
structure BinaryOutputRegister where
  asyncMode : Nat
  rateDivisor : Nat
  commonField : Nat
  timeField : Nat
  imuField : Nat
  gpsField : Nat
  attitudeField : Nat
  insField : Nat
  deriving DecidableEq

/-- The sensor object `vs` with the device behind it, as a state machine over
a state `σ`.  The library is not part of the source file, so its behaviour is
a parameter.  A round trip that raises `vn::timeout` answers `none`.
`destructor` is `~VnSensor()`, which runs when the automatic object `vs`
(line 79) goes out of scope at a `return` of `main`. -/
structure VnSensor (σ : Type) where
  connect : String → Nat → σ → σ
  disconnect : σ → σ
  destructor : σ → σ
  readModelNumber : σ → Option String × σ
  writeSerialBaudRate : Nat → Bool → σ → Option Unit × σ
  readAsyncDataOutputFrequency : σ → Option Nat × σ
  writeAsyncDataOutputFrequency : Nat → σ → Option Unit × σ
  writeBinaryOutput1 : BinaryOutputRegister → σ → Option Unit × σ

/-- One observable operation of `main`, in program order.  For a device round
trip `answered` tells whether a reply came (`false`: `vn::timeout` was
raised).  `destructVnSensor` is the implicit `~VnSensor()` on `vs` when `main`
returns. -/
inductive Event where
  | advertise (topic : String) (queueSize : Nat)
  | connect (port : String) (baud : Nat)
  | disconnect
  | readModelNumber (answered : Bool)
  | writeSerialBaudRate (baud : Nat) (waitForReply : Bool) (answered : Bool)
  | readAsyncDataOutputFrequency (answered : Bool)
  | writeAsyncDataOutputFrequency (hz : Nat) (answered : Bool)
  | writeBinaryOutput1 (bor : BinaryOutputRegister) (answered : Bool)
  | registerAsyncPacketReceivedHandler
  | spin
  | unregisterAsyncPacketReceivedHandler
  | destructVnSensor
  deriving DecidableEq

/-- How lines 82-107 end: control reaches line 109, `main` returns a status,
or a `vn::timeout` leaves the block uncaught. -/
inductive LadderResult where
  | connected
  | fatal (status : Int)
  | timeout
  deriving DecidableEq

/-- How `main` ends. -/
inductive Outcome where
  | returned (status : Int)
  | uncaughtTimeout
  | divideByZero
  deriving DecidableEq

/-- The node parameters read at lines 73, 74 and 115. -/
structure Params where
  serial_port : String
  serial_baud : Nat
  async_output_rate : Nat
  deriving DecidableEq

/-- A run of `main`: the operations its statements perform (`trace`), how it
ended, what happens implicitly on leaving `main` (`atExit`: the destruction of
the automatic object `vs`) and the state of the sensor after that. -/
structure Run (σ : Type) where
  trace : List Event
  outcome : Outcome
  atExit : List Event
  final : σ

/-- Lines 82-107 of `main`: the connection ladder.  Returns how the block
ends, the operations performed and the sensor state. -/
def ladder {σ : Type} (vs : VnSensor σ) (DefaultSensorBaudrate : Nat) (SensorPort : String)
    (SensorBaudrate : Nat) (s : σ) : LadderResult × List Event × σ :=
  -- Has high rate baud been set?
  let s := vs.connect SensorPort SensorBaudrate s
  match vs.readModelNumber s with
  | (some _, s) =>
    (.connected, [.connect SensorPort SensorBaudrate, .readModelNumber true], s)
  | (none, s) =>
    -- Set high baud rate
    let s := vs.connect SensorPort DefaultSensorBaudrate s
    match vs.readModelNumber s with
    | (none, s) =>
      (.fatal (-1),
        [.connect SensorPort SensorBaudrate, .readModelNumber false,
         .connect SensorPort DefaultSensorBaudrate, .readModelNumber false], s)
    | (some _, s) =>
      match vs.writeSerialBaudRate SensorBaudrate true s with
      | (none, s) =>
        (.timeout,
          [.connect SensorPort SensorBaudrate, .readModelNumber false,
           .connect SensorPort DefaultSensorBaudrate, .readModelNumber true,
           .writeSerialBaudRate SensorBaudrate true false], s)
      | (some _, s) =>
        let s := vs.disconnect s
        let s := vs.connect SensorPort SensorBaudrate s
        match vs.readModelNumber s with
        | (none, s) =>
          (.fatal (-1),
            [.connect SensorPort SensorBaudrate, .readModelNumber false,
             .connect SensorPort DefaultSensorBaudrate, .readModelNumber true,
             .writeSerialBaudRate SensorBaudrate true true, .disconnect,
             .connect SensorPort SensorBaudrate, .readModelNumber false], s)
        | (some _, s) =>
          (.connected,
            [.connect SensorPort SensorBaudrate, .readModelNumber false,
             .connect SensorPort DefaultSensorBaudrate, .readModelNumber true,
             .writeSerialBaudRate SensorBaudrate true true, .disconnect,
             .connect SensorPort SensorBaudrate, .readModelNumber true], s)

/-- Lines 66-70: the five publishers are advertised. -/
def advertised : List Event :=
  [.advertise "vectornav/IMU" 1000, .advertise "vectornav/Mag" 1000,
   .advertise "vectornav/GPS" 1000, .advertise "vectornav/Temp" 1000,
   .advertise "vectornav/Pres" 1000]

/-- Lines 109-147 of `main`: what follows the connection ladder. -/
def configureAndSpin {σ : Type} (k : VnConstants) (vs : VnSensor σ) (async_output_rate : Nat)
    (s : σ) : List Event × Outcome × σ :=
  -- Query the sensor's model number.
  match vs.readModelNumber s with
  | (none, s) => ([.readModelNumber false], .uncaughtTimeout, s)
  | (some _, s) =>
    -- Set Data output Freq [Hz]
    match vs.readAsyncDataOutputFrequency s with
    | (none, s) =>
      ([.readModelNumber true, .readAsyncDataOutputFrequency false], .uncaughtTimeout, s)
    | (some _oldHz, s) =>
      match vs.writeAsyncDataOutputFrequency async_output_rate s with
      | (none, s) =>
        ([.readModelNumber true, .readAsyncDataOutputFrequency true,
          .writeAsyncDataOutputFrequency async_output_rate false], .uncaughtTimeout, s)
      | (some _, s) =>
        match vs.readAsyncDataOutputFrequency s with
        | (none, s) =>
          ([.readModelNumber true, .readAsyncDataOutputFrequency true,
            .writeAsyncDataOutputFrequency async_output_rate true,
            .readAsyncDataOutputFrequency false], .uncaughtTimeout, s)
        | (some newHz, s) =>
          if newHz = 0 then
            ([.readModelNumber true, .readAsyncDataOutputFrequency true,
              .writeAsyncDataOutputFrequency async_output_rate true,
              .readAsyncDataOutputFrequency true], .divideByZero, s)
          else
            -- Configure binary output message
            let bor : BinaryOutputRegister :=
              ⟨k.ASYNCMODE_PORT1, 800 / newHz, k.commonMask, k.TIMEGROUP_NONE, k.IMUGROUP_NONE,
                k.GPSGROUP_NONE, k.ATTITUDEGROUP_NONE, k.INSGROUP_NONE⟩
            match vs.writeBinaryOutput1 bor s with
            | (none, s) =>
              ([.readModelNumber true, .readAsyncDataOutputFrequency true,
                .writeAsyncDataOutputFrequency async_output_rate true,
                .readAsyncDataOutputFrequency true, .writeBinaryOutput1 bor false],
                .uncaughtTimeout, s)
            | (some _, s) =>
              -- Node has been terminated
              let s := vs.disconnect s
              ([.readModelNumber true, .readAsyncDataOutputFrequency true,
                .writeAsyncDataOutputFrequency async_output_rate true,
                .readAsyncDataOutputFrequency true, .writeBinaryOutput1 bor true,
                .registerAsyncPacketReceivedHandler, .spin,
                .unregisterAsyncPacketReceivedHandler, .disconnect], .returned 0, s)

/-- Leaving `main`: at a `return` (lines 94, 105, 147) the automatic object
`VnSensor vs` of line 79 is destroyed, so `~VnSensor()` runs.  When a
`vn::timeout` leaves `main` uncaught, or the division of line 126 faults, the
process is terminated and no destructor is taken to run. -/
def leaveMain {σ : Type} (vs : VnSensor σ) (outcome : Outcome) (s : σ) : List Event × σ :=
  match outcome with
  | .returned _ => ([.destructVnSensor], vs.destructor s)
  | _ => ([], s)

/-- The function `main` of `main.cpp` (lines 53-148) with the constant
`DefaultSensorBaudrate` of line 59 as an argument. -/
def mainWith {σ : Type} (DefaultSensorBaudrate : Nat) (k : VnConstants) (vs : VnSensor σ)
    (prm : Params) (s : σ) : Run σ :=
  let SensorPort := prm.serial_port
  let SensorBaudrate := prm.serial_baud
  match ladder vs DefaultSensorBaudrate SensorPort SensorBaudrate s with
  | (.fatal status, t, s) =>
    ⟨advertised ++ t, .returned status, (leaveMain vs (.returned status) s).1,
      (leaveMain vs (.returned status) s).2⟩
  | (.timeout, t, s) =>
    ⟨advertised ++ t, .uncaughtTimeout, (leaveMain vs .uncaughtTimeout s).1,
      (leaveMain vs .uncaughtTimeout s).2⟩
  | (.connected, t, s) =>
    match configureAndSpin k vs prm.async_output_rate s with
    | (t2, outcome, s) =>
      ⟨advertised ++ t ++ t2, outcome, (leaveMain vs outcome s).1, (leaveMain vs outcome s).2⟩

/-- The function `main` of `main.cpp`: line 59 sets `DefaultSensorBaudrate`
to 115200. -/
def main {σ : Type} (k : VnConstants) (vs : VnSensor σ) (prm : Params) (s : σ) : Run σ :=
  mainWith 115200 k vs prm s

/-! ## Devices -/

/-- State of a serial line with a device on it: the baud rate the device runs
at, the baud rate of the open port (if any), the device's output frequency and
its model number. -/
structure Line where
  deviceBaud : Nat
  portBaud : Option Nat
  hz : Nat
  model : String
  deriving DecidableEq

/-- The port and the device talk at the same baud rate. -/
def Line.inSync (s : Line) : Bool :=
  s.portBaud == some s.deviceBaud

/-- A device that answers only when the port runs at the device's current
baud rate, and that switches to the written rate when the baud-rate write
reaches it.  `portBaud` is the connection the sensor object holds; destroying
the sensor object closes it (see `handles`). -/
def truthful : VnSensor Line where
  connect := fun _ baud s => { s with portBaud := some baud }
  disconnect := fun s => { s with portBaud := none }
  destructor := fun s => { s with portBaud := none }
  readModelNumber := fun s => (if s.inSync then some s.model else none, s)
  writeSerialBaudRate := fun baud _ s =>
    if s.inSync then (some (), { s with deviceBaud := baud }) else (none, s)
  readAsyncDataOutputFrequency := fun s => (if s.inSync then some s.hz else none, s)
  writeAsyncDataOutputFrequency := fun hz s =>
    if s.inSync then (some (), { s with hz := hz }) else (none, s)
  writeBinaryOutput1 := fun _ s => (if s.inSync then some () else none, s)

/-- A device given by the list of its replies to the successive round trips:
`some n` answers (with the number `n` where a number is read), `none` times
out; once the list is used up every round trip times out. -/
def scripted : VnSensor (List (Option Nat)) where
  connect := fun _ _ s => s
  disconnect := fun s => s
  destructor := fun s => s
  readModelNumber := fun s => ((s.headD none).map (fun _ => "VN-200"), s.tail)
  writeSerialBaudRate := fun _ _ s => ((s.headD none).map (fun _ => ()), s.tail)
  readAsyncDataOutputFrequency := fun s => (s.headD none, s.tail)
  writeAsyncDataOutputFrequency := fun _ s => ((s.headD none).map (fun _ => ()), s.tail)
  writeBinaryOutput1 := fun _ s => ((s.headD none).map (fun _ => ()), s.tail)

/-- The enumerator values of the VectorNav headers, used for concrete runs. -/
def vnConstants : VnConstants :=
  { COMMONGROUP_TIMESTARTUP := 0x0001
    COMMONGROUP_QUATERNION := 0x0010
    COMMONGROUP_ANGULARRATE := 0x0020
    COMMONGROUP_POSITION := 0x0040
    COMMONGROUP_ACCEL := 0x0100
    COMMONGROUP_MAGPRES := 0x0400
    TIMEGROUP_NONE := 0
    IMUGROUP_NONE := 0
    GPSGROUP_NONE := 0
    ATTITUDEGROUP_NONE := 0
    INSGROUP_NONE := 0
    ASYNCMODE_PORT1 := 1 }

/-- An event is an identity query. -/
def Event.isQuery : Event → Bool
  | .readModelNumber _ => true
  | _ => false

/-- An event opens an output channel. -/
def Event.isAdvertise : Event → Bool
  | .advertise _ _ => true
  | _ => false

/-- An event configures the telemetry stream, registers the callback or waits
for frames. -/
def Event.isTelemetrySetup : Event → Bool
  | .readAsyncDataOutputFrequency _ => true
  | .writeAsyncDataOutputFrequency _ _ => true
  | .writeBinaryOutput1 _ _ => true
  | .registerAsyncPacketReceivedHandler => true
  | .spin => true
  | .unregisterAsyncPacketReceivedHandler => true
  | _ => false

/-- An event writes the baud rate. -/
def Event.isBaudWrite : Event → Bool
  | .writeSerialBaudRate _ _ _ => true
  | _ => false

/-- Number of port handles open after a sequence of operations, starting from
`n` open handles: `connect` opens one, `disconnect` closes one. -/
def openHandles : List Event → Nat → Nat
  | [], n => n
  | .connect _ _ :: t, n => openHandles t (n + 1)
  | .disconnect :: t, n => openHandles t (n - 1)
  | _ :: t, n => openHandles t n

/-- The serial port handles of the process: how many are open, and whether
the sensor object holds one (the handle of its latest `connect`, not yet
closed). -/
structure Handles where
  opened : Nat
  held : Bool
  deriving DecidableEq

/-- Close the handle the sensor object holds, if it holds one. -/
def Handles.release (h : Handles) : Handles :=
  if h.held then ⟨h.opened - 1, false⟩ else h

/-- Modelled from the spec: `VnSensor::connect`, `VnSensor::disconnect` and
`~VnSensor()` are library code.  The spec says the Connection is "destroyed on
shutdown or fatal negotiation failure", so destroying the sensor object closes
the handle it holds, as `disconnect` does; and it says a reconnection has to
close "the prior port handle before reopening" because "overlapping open
handles on the same port are disallowed", so `connect` opens a new handle and
leaves a handle that is still open as it is: the sensor object then holds the
new one only. -/
def handles : List Event → Handles → Handles
  | [], h => h
  | .connect _ _ :: t, h => handles t ⟨h.opened + 1, true⟩
  | .disconnect :: t, h => handles t h.release
  | .destructVnSensor :: t, h => handles t h.release
  | _ :: t, h => handles t h

/-- The handles at process exit of a run that starts with no handle open:
after the operations of `main` and what happens on leaving it. -/
def Run.handlesAtExit {σ : Type} (r : Run σ) : Handles :=
  handles (r.trace ++ r.atExit) ⟨0, false⟩


/-! ## Sample inputs -/

/-- The default node parameters of lines 73, 74 and 115. -/
def defaultParams : Params :=
  { serial_port := "/dev/ttyUSB0", serial_baud := 921600, async_output_rate := 200 }

/-- A line whose device runs at `baud`, port closed, output at 40 Hz. -/
def lineAt (baud : Nat) : Line :=
  { deviceBaud := baud, portBaud := none, hz := 40, model := "VN-200" }


/-- Field values of a sample frame. -/
def sampleFields : Fields :=
  { timeStartup := 123456789012
    q := ⟨0x3F800000, 0x00000000, 0x80000000, 0x3F000000⟩
    ar := ⟨0x3DCCCCCD, 0xBE4CCCCD, 0x3E99999A⟩
    lla := ⟨0x4042A0A3D70A3D71, 0xC05E99999999999A, 0x4059000000000000⟩
    al := ⟨0x3F000000, 0xBF000000, 0x411CE80A⟩
    mag := ⟨0x3E800000, 0xBE000000, 0x3F19999A⟩
    temp := 0x41C80000
    pres := 0x42CA999A }

/-- A binary packet with the expected groups that carries `v`, followed by
two checksum bytes. -/
def packetOf (k : VnConstants) (v : Fields) : Packet :=
  { type := .TYPE_BINARY
    commonGroup := k.commonMask
    timeGroup := k.TIMEGROUP_NONE
    imuGroup := k.IMUGROUP_NONE
    gpsGroup := k.GPSGROUP_NONE
    attitudeGroup := k.ATTITUDEGROUP_NONE
    insGroup := k.INSGROUP_NONE
    payload := encodeFields v ++ [0xAB, 0xCD]
    curExtractLoc := 0 }

/-- Surroundings in which every channel has `n` subscribers. -/
def rosAll (n : Nat) : RosState :=
  { getNumSubscribers := fun _ => n, now := 1000, frame_id := "vectornav" }

/-- Surroundings in which only channel `c` has a subscriber. -/
def rosOnly (c : Channel) : RosState :=
  { getNumSubscribers := fun d => if d = c then 1 else 0, now := 1000, frame_id := "vectornav" }

/-- A packet of type ASCII that otherwise looks like `packetOf`. -/
def asciiPacket (k : VnConstants) (v : Fields) : Packet :=
  { packetOf k v with type := .TYPE_ASCII }

/-- A binary packet whose time group is not the expected one. -/
def otherGroupsPacket (k : VnConstants) (v : Fields) : Packet :=
  { packetOf k v with timeGroup := k.TIMEGROUP_NONE + 1 }

/-- Sample field values that differ from frame to frame: `timeStartup` is
`t`, and the first quaternion component and the temperature depend on `t`. -/
def sampleAt (t : Nat) : Fields :=
  { sampleFields with
    timeStartup := t
    q := ⟨0x3F800000 + t, 0x00000000, 0x80000000, 0x3F000000⟩
    temp := 0x41C80000 + t }

/-- Surroundings at time `now` in which channel `c` has `count c` subscribers. -/
def rosAt (now : Nat) (count : Channel → Nat) : RosState :=
  { getNumSubscribers := count, now := now, frame_id := "vectornav" }

/-- Three accepted frames with `timeStartup` 1, 2, 3 and different contents,
arriving at times 1001, 1002, 1003; at the first only the IMU channel has a
subscriber, at the second no channel has one, at the third every channel has
one. -/
def sampleStream : List (RosState × Packet) :=
  [(rosAt 1001 (fun c => if c = .pubIMU then 1 else 0), packetOf vnConstants (sampleAt 1)),
   (rosAt 1002 (fun _ => 0), packetOf vnConstants (sampleAt 2)),
   (rosAt 1003 (fun _ => 2), packetOf vnConstants (sampleAt 3))]

/-! ## Lemmas on the callback -/

theorem callback_rejected (k : VnConstants) (ros : RosState) (p : Packet)
    (h : accepted k p = false) : BinaryAsyncMessageReceived k ros p = [] := by
  unfold BinaryAsyncMessageReceived
  by_cases ht : p.type = PacketType.TYPE_BINARY
  · simp [accepted, ht] at h
    simp [ht, h]
  · simp [ht]

theorem callback_accepted (k : VnConstants) (ros : RosState) (p : Packet)
    (h : accepted k p = true) :
    BinaryAsyncMessageReceived k ros p
      = gated ros (unpack p) .pubIMU ++ gated ros (unpack p) .pubMag
        ++ gated ros (unpack p) .pubGPS ++ gated ros (unpack p) .pubTemp
        ++ gated ros (unpack p) .pubPres := by
  simp only [accepted, Bool.and_eq_true, decide_eq_true_eq] at h
  obtain ⟨ht, hc⟩ := h
  unfold BinaryAsyncMessageReceived
  simp only [ht, hc, if_true, Bool.not_true]
  generalize hv : unpack p = v
  simp only [unpack] at hv
  subst hv
  simp only [gated, messageFor, gt_iff_lt]
  by_cases h1 : 0 < ros.getNumSubscribers .pubIMU <;>
  by_cases h2 : 0 < ros.getNumSubscribers .pubMag <;>
  by_cases h3 : 0 < ros.getNumSubscribers .pubGPS <;>
  by_cases h4 : 0 < ros.getNumSubscribers .pubTemp <;>
  by_cases h5 : 0 < ros.getNumSubscribers .pubPres <;>
  simp only [h1, h2, h3, h4, h5, if_true, if_false, List.nil_append, List.append_nil,
    List.cons_append, List.append_assoc, Bool.false_eq_true]

theorem messageFor_channel (ros : RosState) (v : Fields) (c : Channel) :
    (messageFor ros v c).channel = c := by
  cases c <;> rfl

theorem recordsOn_gated (ros : RosState) (v : Fields) (c d : Channel) :
    recordsOn c (gated ros v d) = if d = c then gated ros v c else [] := by
  by_cases hdc : d = c
  · subst hdc
    by_cases hs : 0 < ros.getNumSubscribers d
    · simp [recordsOn, gated, hs, messageFor_channel]
    · simp [recordsOn, gated, hs]
  · by_cases hs : 0 < ros.getNumSubscribers d
    · simp [recordsOn, gated, hs, messageFor_channel, hdc]
    · simp [recordsOn, gated, hs, hdc]

theorem recordsOn_append (c : Channel) (a b : List Published) :
    recordsOn c (a ++ b) = recordsOn c a ++ recordsOn c b := by
  simp [recordsOn]

theorem recordsOn_callback (k : VnConstants) (ros : RosState) (p : Packet)
    (h : accepted k p = true) (c : Channel) :
    recordsOn c (BinaryAsyncMessageReceived k ros p) = gated ros (unpack p) c := by
  rw [callback_accepted k ros p h]
  simp only [recordsOn_append, recordsOn_gated]
  cases c <;> simp

theorem deliver_eq (k : VnConstants) (frames : List (RosState × Packet)) (log : List Published) :
    deliver k frames log
      = log ++ frames.flatMap (fun f => BinaryAsyncMessageReceived k f.1 f.2) := by
  induction frames generalizing log with
  | nil => simp [deliver]
  | cons f rest ih => simp [deliver, ih, List.append_assoc]

theorem deliver_append (k : VnConstants) (a b : List (RosState × Packet)) :
    deliver k (a ++ b) [] = deliver k a [] ++ deliver k b [] := by
  simp [deliver_eq]

theorem deliver_single (k : VnConstants) (f : RosState × Packet) :
    deliver k [f] [] = BinaryAsyncMessageReceived k f.1 f.2 := by
  simp [deliver]

/-! ## Lemmas on the byte layout -/

theorem byteAt_advance (p : Packet) (n i : Nat) :
    (p.advance n).byteAt i = p.byteAt (n + i) := by
  simp [Packet.byteAt, Packet.advance, Nat.add_assoc]

theorem advance_advance (p : Packet) (a b : Nat) :
    (p.advance a).advance b = p.advance (a + b) := by
  simp [Packet.advance, Nat.add_assoc]

theorem byteAt_of_drop (p : Packet) (l : List Nat)
    (h : p.payload.drop p.curExtractLoc = l) (i : Nat) :
    p.byteAt i = l.getD i 0 % 256 := by
  subst h
  simp [Packet.byteAt, List.getD_eq_getElem?_getD, List.getElem?_drop]

theorem le32 (x : Nat) (h : x < 2 ^ 32) :
    x % 256 % 256 + x / 256 % 256 % 256 * 2 ^ 8 + x / 256 / 256 % 256 % 256 * 2 ^ 16
      + x / 256 / 256 / 256 % 256 % 256 * 2 ^ 24 = x := by
  norm_num at h ⊢
  omega

theorem le64 (x : Nat) (h : x < 2 ^ 64) :
    x % 256 % 256 + x / 256 % 256 % 256 * 2 ^ 8 + x / 256 / 256 % 256 % 256 * 2 ^ 16
      + x / 256 / 256 / 256 % 256 % 256 * 2 ^ 24
      + (x / 256 / 256 / 256 / 256 % 256 % 256
        + x / 256 / 256 / 256 / 256 / 256 % 256 % 256 * 2 ^ 8
        + x / 256 / 256 / 256 / 256 / 256 / 256 % 256 % 256 * 2 ^ 16
        + x / 256 / 256 / 256 / 256 / 256 / 256 / 256 % 256 % 256 * 2 ^ 24) * 2 ^ 32 = x := by
  norm_num at h ⊢
  omega

/-- Unpacking a payload laid out as the spec says gives back the field values. -/
theorem unpack_encodeFields (p : Packet) (v : Fields) (rest : List Nat)
    (hv : v.wellFormed)
    (h : p.payload.drop p.curExtractLoc = encodeFields v ++ rest) : unpack p = v := by
  obtain ⟨ts, ⟨q0, q1, q2, q3⟩, ⟨ar0, ar1, ar2⟩, ⟨l0, l1, l2⟩, ⟨al0, al1, al2⟩,
    ⟨m0, m1, m2⟩, temp, pres⟩ := v
  simp only [Fields.wellFormed] at hv
  obtain ⟨h1, h2, h3, h4, h5, h6, h7, h8, h9, h10, h11, h12, h13, h14, h15, h16, h17, h18,
    h19⟩ := hv
  simp only [unpack, Packet.extractUint64, Packet.extractVec4f, Packet.extractVec3f,
    Packet.extractVec3d, Packet.extractFloat, Packet.peek64, Packet.peek32, byteAt_advance,
    advance_advance, byteAt_of_drop p _ h, Nat.reduceAdd]
  simp only [encodeFields, leBytes, List.cons_append, List.nil_append, List.append_assoc,
    List.getD_cons_zero, List.getD_cons_succ]
  simp only [le32 _ h2, le32 _ h3, le32 _ h4, le32 _ h5, le32 _ h6, le32 _ h7, le32 _ h8,
    le32 _ h12, le32 _ h13, le32 _ h14, le32 _ h15, le32 _ h16, le32 _ h17, le32 _ h18,
    le32 _ h19, le64 _ h1, le64 _ h9, le64 _ h10, le64 _ h11]

theorem accepted_packetOf (k : VnConstants) (v : Fields) : accepted k (packetOf k v) = true := by
  simp [accepted, packetOf, Packet.isCompatible]

theorem sampleFields_wellFormed : sampleFields.wellFormed := by
  simp only [Fields.wellFormed, sampleFields]
  norm_num


theorem timeStartup_packetOf (k : VnConstants) (v : Fields) (hv : v.wellFormed) :
    (packetOf k v).timeStartup = v.timeStartup := by
  have h := unpack_encodeFields (packetOf k v) v [0xAB, 0xCD] hv rfl
  have h2 : (packetOf k v).timeStartup = (unpack (packetOf k v)).timeStartup := rfl
  rw [h2, h]

theorem sampleAt_wellFormed (t : Nat) (ht : t < 1000) : (sampleAt t).wellFormed := by
  simp only [Fields.wellFormed, sampleAt, sampleFields]
  norm_num
  omega

/-! ## The callback: claims -/

/-- C1 (decode correctness): for a packet that passes validation and whose
payload holds, in wire order, `timeStartup`, `q`, `ar`, `lla`, `al`, `mag`,
temperature and pressure, and with a subscriber on every channel, the callback
publishes exactly five messages: the IMU message with orientation
`(q0, q1, q2, q3)`, angular velocity `ar` and linear acceleration `al`; the
magnetic message with field `mag`; the GPS message with latitude, longitude,
altitude `lla0, lla1, lla2`; the temperature message; the pressure message. -/
theorem C1_decode_correctness (k : VnConstants) (ros : RosState) (p : Packet) (v : Fields)
    (rest : List Nat) (hacc : accepted k p = true) (hv : v.wellFormed)
    (hpay : p.payload.drop p.curExtractLoc = encodeFields v ++ rest)
    (hsub : ∀ c, 0 < ros.getNumSubscribers c) :
    BinaryAsyncMessageReceived k ros p =
      [ .imu
          { header := ⟨ros.now, ros.frame_id⟩
            orientation := ⟨.ofFloat v.q.c0, .ofFloat v.q.c1, .ofFloat v.q.c2, .ofFloat v.q.c3⟩
            angular_velocity := ⟨.ofFloat v.ar.c0, .ofFloat v.ar.c1, .ofFloat v.ar.c2⟩
            linear_acceleration := ⟨.ofFloat v.al.c0, .ofFloat v.al.c1, .ofFloat v.al.c2⟩ },
        .mag
          { header := ⟨ros.now, ros.frame_id⟩
            magnetic_field := ⟨.ofFloat v.mag.c0, .ofFloat v.mag.c1, .ofFloat v.mag.c2⟩ },
        .gps
          { header := ⟨ros.now, ros.frame_id⟩
            latitude := .ofBits v.lla.c0
            longitude := .ofBits v.lla.c1
            altitude := .ofBits v.lla.c2 },
        .temp { header := ⟨ros.now, ros.frame_id⟩, temperature := .ofFloat v.temp },
        .pres { header := ⟨ros.now, ros.frame_id⟩, fluid_pressure := .ofFloat v.pres } ] := by
  rw [callback_accepted k ros p hacc, unpack_encodeFields p v rest hv hpay]
  simp [gated, hsub, messageFor]

/-- Witness of C1 on the sample packet. -/
theorem C1_decode_correctness_witness :
    accepted vnConstants (packetOf vnConstants sampleFields) = true ∧
    sampleFields.wellFormed ∧
    BinaryAsyncMessageReceived vnConstants (rosAll 1) (packetOf vnConstants sampleFields) =
      [ .imu
          { header := ⟨1000, "vectornav"⟩
            orientation :=
              ⟨.ofFloat 0x3F800000, .ofFloat 0x00000000, .ofFloat 0x80000000, .ofFloat 0x3F000000⟩
            angular_velocity := ⟨.ofFloat 0x3DCCCCCD, .ofFloat 0xBE4CCCCD, .ofFloat 0x3E99999A⟩
            linear_acceleration :=
              ⟨.ofFloat 0x3F000000, .ofFloat 0xBF000000, .ofFloat 0x411CE80A⟩ },
        .mag
          { header := ⟨1000, "vectornav"⟩
            magnetic_field := ⟨.ofFloat 0x3E800000, .ofFloat 0xBE000000, .ofFloat 0x3F19999A⟩ },
        .gps
          { header := ⟨1000, "vectornav"⟩
            latitude := .ofBits 0x4042A0A3D70A3D71
            longitude := .ofBits 0xC05E99999999999A
            altitude := .ofBits 0x4059000000000000 },
        .temp { header := ⟨1000, "vectornav"⟩, temperature := .ofFloat 0x41C80000 },
        .pres { header := ⟨1000, "vectornav"⟩, fluid_pressure := .ofFloat 0x42CA999A } ] :=
  ⟨accepted_packetOf _ _, sampleFields_wellFormed,
    C1_decode_correctness vnConstants (rosAll 1) (packetOf vnConstants sampleFields)
      sampleFields [0xAB, 0xCD] (accepted_packetOf _ _) sampleFields_wellFormed rfl
      (fun _ => Nat.one_pos)⟩

/-- C2 (rejection correctness): a packet whose type marker is not the binary
type, or whose field groups are not compatible with the expected mask, makes
the callback publish nothing on any channel, whatever the payload and the
subscriber counts. -/
theorem C2_rejection_correctness (k : VnConstants) (ros : RosState) (p : Packet)
    (h : p.type ≠ PacketType.TYPE_BINARY ∨
      p.isCompatible k.commonMask k.TIMEGROUP_NONE k.IMUGROUP_NONE k.GPSGROUP_NONE
        k.ATTITUDEGROUP_NONE k.INSGROUP_NONE = false) :
    BinaryAsyncMessageReceived k ros p = [] ∧
      ∀ c, recordsOn c (BinaryAsyncMessageReceived k ros p) = [] := by
  have hrej : accepted k p = false := by
    rcases h with h | h
    · simp [accepted, h]
    · simp [accepted, h]
  have h0 := callback_rejected k ros p hrej
  refine ⟨h0, fun c => ?_⟩
  rw [h0]
  rfl

/-- Witness of C2: an ASCII packet and a binary packet with another time
group, both with a full payload and subscribers on every channel. -/
theorem C2_rejection_correctness_witness :
    BinaryAsyncMessageReceived vnConstants (rosAll 3) (asciiPacket vnConstants sampleFields) = []
    ∧ BinaryAsyncMessageReceived vnConstants (rosAll 3)
        (otherGroupsPacket vnConstants sampleFields) = [] :=
  ⟨(C2_rejection_correctness vnConstants (rosAll 3) (asciiPacket vnConstants sampleFields)
      (Or.inl (by decide))).1,
   (C2_rejection_correctness vnConstants (rosAll 3) (otherGroupsPacket vnConstants sampleFields)
      (Or.inr (by decide))).1⟩

/-- C3 (demand gating): for an accepted packet and each channel `c`, the
callback publishes exactly one message on `c` if `c` has a subscriber and none
otherwise; what it publishes on `c` does not depend on the subscriber counts of
the other channels; and in a stream where `c` has no subscriber during the
frames `pre` and has one when the next frame arrives, nothing is published on
`c` for `pre` and that next frame produces the first message on `c`. -/
theorem C3_demand_gating (k : VnConstants) (ros : RosState) (p : Packet)
    (hacc : accepted k p = true) (c : Channel) :
    ((recordsOn c (BinaryAsyncMessageReceived k ros p)).length
        = if 0 < ros.getNumSubscribers c then 1 else 0)
    ∧ (∀ ros2 : RosState, ros2.getNumSubscribers c = ros.getNumSubscribers c →
        ros2.now = ros.now → ros2.frame_id = ros.frame_id →
        recordsOn c (BinaryAsyncMessageReceived k ros2 p)
          = recordsOn c (BinaryAsyncMessageReceived k ros p))
    ∧ (∀ pre rest : List (RosState × Packet),
        (∀ f ∈ pre, accepted k f.2 = true ∧ f.1.getNumSubscribers c = 0) →
        0 < ros.getNumSubscribers c →
        recordsOn c (deliver k pre []) = []
        ∧ (recordsOn c (BinaryAsyncMessageReceived k ros p)).length = 1
        ∧ recordsOn c (deliver k (pre ++ (ros, p) :: rest) [])
            = recordsOn c (BinaryAsyncMessageReceived k ros p)
              ++ recordsOn c (deliver k rest [])) := by
  refine ⟨?_, ?_, ?_⟩
  · rw [recordsOn_callback k ros p hacc c]
    by_cases hs : 0 < ros.getNumSubscribers c <;> simp [gated, hs]
  · intro ros2 hn hnow hid
    rw [recordsOn_callback k ros p hacc c, recordsOn_callback k ros2 p hacc c]
    cases c <;> simp [gated, messageFor, hn, hnow, hid]
  · intro pre rest hpre hs
    have hnil : recordsOn c (deliver k pre []) = [] := by
      clear hs
      induction pre with
      | nil => rfl
      | cons f pre ih =>
        have hf := hpre f (List.mem_cons_self f pre)
        have ih2 := ih (fun g hg => hpre g (List.mem_cons_of_mem f hg))
        have hsplit : deliver k (f :: pre) [] = deliver k [f] [] ++ deliver k pre [] :=
          deliver_append k [f] pre
        rw [hsplit, recordsOn_append, ih2, deliver_single, recordsOn_callback k f.1 f.2 hf.1 c]
        simp [gated, hf.2]
    refine ⟨hnil, ?_, ?_⟩
    · rw [recordsOn_callback k ros p hacc c]
      simp [gated, hs]
    · have hsplit : deliver k (pre ++ (ros, p) :: rest) []
          = deliver k pre [] ++ (deliver k [(ros, p)] [] ++ deliver k rest []) := by
        rw [deliver_append k pre ((ros, p) :: rest)]
        exact congrArg (fun l => deliver k pre [] ++ l) (deliver_append k [(ros, p)] rest)
      rw [hsplit, recordsOn_append, recordsOn_append, hnil, deliver_single]
      rfl

/-- Witness of C3: the sample packet with a subscriber on the GPS channel
only produces exactly one GPS message and no IMU message. -/
theorem C3_demand_gating_witness :
    accepted vnConstants (packetOf vnConstants sampleFields) = true ∧
    (recordsOn .pubGPS (BinaryAsyncMessageReceived vnConstants (rosOnly .pubGPS)
      (packetOf vnConstants sampleFields))).length = 1 ∧
    (recordsOn .pubIMU (BinaryAsyncMessageReceived vnConstants (rosOnly .pubGPS)
      (packetOf vnConstants sampleFields))).length = 0 :=
  ⟨accepted_packetOf _ _,
   (C3_demand_gating vnConstants (rosOnly .pubGPS) (packetOf vnConstants sampleFields)
      (accepted_packetOf _ _) .pubGPS).1,
   (C3_demand_gating vnConstants (rosOnly .pubGPS) (packetOf vnConstants sampleFields)
      (accepted_packetOf _ _) .pubIMU).1⟩

/-- The messages on channel `c` of a stream of accepted frames: one per frame
that wants `c`, in frame order, each built from the values unpacked from that
very frame and stamped with that frame's arrival time. -/
theorem recordsOn_deliver (k : VnConstants) (frames : List (RosState × Packet))
    (hacc : ∀ f ∈ frames, accepted k f.2 = true) (c : Channel) :
    recordsOn c (deliver k frames [])
      = (frames.filter (wants c)).map (fun f => messageFor f.1 (unpack f.2) c) := by
  induction frames with
  | nil => rfl
  | cons f rest ih =>
    have hf := hacc f (List.mem_cons_self f rest)
    have ih2 := ih (fun g hg => hacc g (List.mem_cons_of_mem f hg))
    have hsplit : deliver k (f :: rest) [] = deliver k [f] [] ++ deliver k rest [] :=
      deliver_append k [f] rest
    rw [hsplit, recordsOn_append, ih2, deliver_single, recordsOn_callback k f.1 f.2 hf c]
    by_cases hw : wants c f = true
    · have hp : 0 < f.1.getNumSubscribers c := by simpa [wants] using hw
      simp [List.filter_cons, hw, gated, hp]
    · have hz : ¬ 0 < f.1.getNumSubscribers c := by simpa [wants] using hw
      simp [List.filter_cons, hw, gated, hz]

/-- C8 (ordering): for accepted frames delivered one after another, with
strictly increasing embedded `timeStartup`, the messages on a channel `c` are
those of the frames that want `c`, one per such frame and in frame order (an
order-preserving subsequence of the input, hence with increasing
`timeStartup`), and everything published for one frame precedes everything
published for the next.  Each message is tied to the frame it was decoded
from: the i-th message on `c` is the one built from the values unpacked from
the i-th frame that wants `c` and carries that frame's arrival time; when the
payloads hold the field values `fld f` in wire order, it carries exactly
`fld f`.  The whole publish log is, frame after frame, the gated messages of
that frame in the order IMU, magnetic, GPS, temperature, pressure. -/
theorem C8_ordering (k : VnConstants) (frames : List (RosState × Packet))
    (hacc : ∀ f ∈ frames, accepted k f.2 = true)
    (hts : (frames.map (fun f => f.2.timeStartup)).Sorted (· < ·)) (c : Channel) :
    recordsOn c (deliver k frames [])
        = (frames.filter (wants c)).flatMap
            (fun f => recordsOn c (BinaryAsyncMessageReceived k f.1 f.2))
    ∧ (∀ f ∈ frames.filter (wants c),
        (recordsOn c (BinaryAsyncMessageReceived k f.1 f.2)).length = 1)
    ∧ (frames.filter (wants c)).Sublist frames
    ∧ ((frames.filter (wants c)).map (fun f => f.2.timeStartup)).Sorted (· < ·)
    ∧ (∀ (pre post : List (RosState × Packet)) (f g : RosState × Packet),
        frames = pre ++ f :: g :: post →
        deliver k frames []
          = deliver k pre [] ++ BinaryAsyncMessageReceived k f.1 f.2
            ++ BinaryAsyncMessageReceived k g.1 g.2 ++ deliver k post [])
    ∧ recordsOn c (deliver k frames [])
        = (frames.filter (wants c)).map (fun f => messageFor f.1 (unpack f.2) c)
    ∧ (∀ f ∈ frames, (unpack f.2).timeStartup = f.2.timeStartup)
    ∧ (∀ fld : RosState × Packet → Fields,
        (∀ f ∈ frames, (fld f).wellFormed ∧
          ∃ rest, f.2.payload.drop f.2.curExtractLoc = encodeFields (fld f) ++ rest) →
        recordsOn c (deliver k frames [])
            = (frames.filter (wants c)).map (fun f => messageFor f.1 (fld f) c)
        ∧ ((frames.filter (wants c)).map (fun f => (fld f).timeStartup)).Sorted (· < ·))
    ∧ deliver k frames []
        = frames.flatMap (fun f =>
            gated f.1 (unpack f.2) .pubIMU ++ gated f.1 (unpack f.2) .pubMag
              ++ gated f.1 (unpack f.2) .pubGPS ++ gated f.1 (unpack f.2) .pubTemp
              ++ gated f.1 (unpack f.2) .pubPres) := by
  have hsorted : ((frames.filter (wants c)).map (fun f => f.2.timeStartup)).Sorted (· < ·) :=
    List.Pairwise.sublist ((List.filter_sublist _).map _) hts
  refine ⟨?_, ?_, List.filter_sublist _, hsorted, ?_, recordsOn_deliver k frames hacc c,
    fun _ _ => rfl, ?_, ?_⟩
  · clear hts hsorted
    induction frames with
    | nil => rfl
    | cons f rest ih =>
      have hf := hacc f (List.mem_cons_self f rest)
      have ih2 := ih (fun g hg => hacc g (List.mem_cons_of_mem f hg))
      have hsplit : deliver k (f :: rest) [] = deliver k [f] [] ++ deliver k rest [] :=
        deliver_append k [f] rest
      rw [hsplit, recordsOn_append, ih2, deliver_single]
      by_cases hw : wants c f = true
      · simp [List.filter_cons, hw]
      · have hz : ¬ 0 < f.1.getNumSubscribers c := by simpa [wants] using hw
        simp [List.filter_cons, hw, recordsOn_callback k f.1 f.2 hf c, gated, hz]
  · intro f hf
    rw [List.mem_filter] at hf
    have hw : 0 < f.1.getNumSubscribers c := by simpa [wants] using hf.2
    rw [recordsOn_callback k f.1 f.2 (hacc f hf.1) c]
    simp [gated, hw]
  · intro pre post f g hfr
    subst hfr
    have h1 : deliver k (pre ++ f :: g :: post) []
        = deliver k pre [] ++ deliver k (f :: g :: post) [] := deliver_append k pre _
    have h2 : deliver k (f :: g :: post) [] = deliver k [f] [] ++ deliver k (g :: post) [] :=
      deliver_append k [f] _
    have h3 : deliver k (g :: post) [] = deliver k [g] [] ++ deliver k post [] :=
      deliver_append k [g] _
    rw [h1, h2, h3, deliver_single, deliver_single]
    simp [List.append_assoc]
  · intro fld hfld
    have hun : ∀ f ∈ frames, unpack f.2 = fld f := by
      intro f hf
      obtain ⟨hwf, rest, hpay⟩ := hfld f hf
      exact unpack_encodeFields f.2 (fld f) rest hwf hpay
    constructor
    · rw [recordsOn_deliver k frames hacc c]
      apply List.map_congr_left
      intro f hf
      rw [hun f (List.mem_filter.mp hf).1]
    · have hmap : (frames.filter (wants c)).map (fun f => (fld f).timeStartup)
          = (frames.filter (wants c)).map (fun f => f.2.timeStartup) := by
        apply List.map_congr_left
        intro f hf
        have h := hun f (List.mem_filter.mp hf).1
        have h2 : f.2.timeStartup = (unpack f.2).timeStartup := rfl
        rw [h2, h]
      rw [hmap]
      exact hsorted
  · rw [deliver_eq, List.nil_append]
    clear hts hsorted
    induction frames with
    | nil => rfl
    | cons f rest ih =>
      have hf := hacc f (List.mem_cons_self f rest)
      have ih2 := ih (fun g hg => hacc g (List.mem_cons_of_mem f hg))
      simp only [List.flatMap_cons, ih2, callback_accepted k f.1 f.2 hf]

theorem sampleStream_accepted : ∀ f ∈ sampleStream, accepted vnConstants f.2 = true := by
  intro f hf
  simp only [sampleStream, List.mem_cons, List.mem_singleton, List.not_mem_nil, or_false] at hf
  rcases hf with rfl | rfl | rfl <;> exact accepted_packetOf _ _

theorem sampleStream_sorted :
    (sampleStream.map (fun f => f.2.timeStartup)).Sorted (· < ·) := by
  have h1 := timeStartup_packetOf vnConstants (sampleAt 1) (sampleAt_wellFormed 1 (by norm_num))
  have h2 := timeStartup_packetOf vnConstants (sampleAt 2) (sampleAt_wellFormed 2 (by norm_num))
  have h3 := timeStartup_packetOf vnConstants (sampleAt 3) (sampleAt_wellFormed 3 (by norm_num))
  simp only [sampleStream, List.map_cons, List.map_nil, h1, h2, h3]
  simp [sampleAt]

theorem sampleStream_unpack :
    (sampleStream.filter (wants .pubIMU)).map
        (fun f => messageFor f.1 (unpack f.2) .pubIMU)
      = [messageFor (rosAt 1001 (fun c => if c = .pubIMU then 1 else 0)) (sampleAt 1) .pubIMU,
         messageFor (rosAt 1003 (fun _ => 2)) (sampleAt 3) .pubIMU] := by
  have h1 := unpack_encodeFields (packetOf vnConstants (sampleAt 1)) (sampleAt 1) [0xAB, 0xCD]
    (sampleAt_wellFormed 1 (by norm_num)) rfl
  have h3 := unpack_encodeFields (packetOf vnConstants (sampleAt 3)) (sampleAt 3) [0xAB, 0xCD]
    (sampleAt_wellFormed 3 (by norm_num)) rfl
  simp [sampleStream, wants, rosAt, h1, h3]

/-- Witness of C8 on the three-frame sample stream: the IMU channel carries
the message of frame 1 and then the message of frame 3, each with the values
and the arrival time of its own frame. -/
theorem C8_ordering_witness :
    (sampleStream.map (fun f => f.2.timeStartup)).Sorted (· < ·) ∧
    recordsOn .pubIMU (deliver vnConstants sampleStream [])
      = [ .imu
            { header := ⟨1001, "vectornav"⟩
              orientation :=
                ⟨.ofFloat 0x3F800001, .ofFloat 0x00000000, .ofFloat 0x80000000,
                  .ofFloat 0x3F000000⟩
              angular_velocity := ⟨.ofFloat 0x3DCCCCCD, .ofFloat 0xBE4CCCCD, .ofFloat 0x3E99999A⟩
              linear_acceleration :=
                ⟨.ofFloat 0x3F000000, .ofFloat 0xBF000000, .ofFloat 0x411CE80A⟩ },
          .imu
            { header := ⟨1003, "vectornav"⟩
              orientation :=
                ⟨.ofFloat 0x3F800003, .ofFloat 0x00000000, .ofFloat 0x80000000,
                  .ofFloat 0x3F000000⟩
              angular_velocity := ⟨.ofFloat 0x3DCCCCCD, .ofFloat 0xBE4CCCCD, .ofFloat 0x3E99999A⟩
              linear_acceleration :=
                ⟨.ofFloat 0x3F000000, .ofFloat 0xBF000000, .ofFloat 0x411CE80A⟩ } ] :=
  ⟨sampleStream_sorted,
   ((C8_ordering vnConstants sampleStream sampleStream_accepted sampleStream_sorted
      .pubIMU).2.2.2.2.2.1.trans sampleStream_unpack).trans rfl⟩


/-! ## Lemmas on the start-up sequence -/

theorem ladder_first_ok {σ : Type} (vs : VnSensor σ) (fb : Nat) (port : String) (baud : Nat)
    (s s1 : σ) (mn : String)
    (h1 : vs.readModelNumber (vs.connect port baud s) = (some mn, s1)) :
    ladder vs fb port baud s
      = (.connected, [.connect port baud, .readModelNumber true], s1) := by
  simp only [ladder, h1]

theorem ladder_both_timeout {σ : Type} (vs : VnSensor σ) (fb : Nat) (port : String) (baud : Nat)
    (s s1 s2 : σ)
    (h1 : vs.readModelNumber (vs.connect port baud s) = (none, s1))
    (h2 : vs.readModelNumber (vs.connect port fb s1) = (none, s2)) :
    ladder vs fb port baud s
      = (.fatal (-1),
          [.connect port baud, .readModelNumber false,
           .connect port fb, .readModelNumber false], s2) := by
  simp only [ladder, h1, h2]

theorem ladder_write_timeout {σ : Type} (vs : VnSensor σ) (fb : Nat) (port : String)
    (baud : Nat) (s s1 s2 s3 : σ) (mn : String)
    (h1 : vs.readModelNumber (vs.connect port baud s) = (none, s1))
    (h2 : vs.readModelNumber (vs.connect port fb s1) = (some mn, s2))
    (h3 : vs.writeSerialBaudRate baud true s2 = (none, s3)) :
    ladder vs fb port baud s
      = (.timeout,
          [.connect port baud, .readModelNumber false,
           .connect port fb, .readModelNumber true,
           .writeSerialBaudRate baud true false], s3) := by
  simp only [ladder, h1, h2, h3]

theorem ladder_third_timeout {σ : Type} (vs : VnSensor σ) (fb : Nat) (port : String)
    (baud : Nat) (s s1 s2 s3 s4 : σ) (mn : String)
    (h1 : vs.readModelNumber (vs.connect port baud s) = (none, s1))
    (h2 : vs.readModelNumber (vs.connect port fb s1) = (some mn, s2))
    (h3 : vs.writeSerialBaudRate baud true s2 = (some (), s3))
    (h4 : vs.readModelNumber (vs.connect port baud (vs.disconnect s3)) = (none, s4)) :
    ladder vs fb port baud s
      = (.fatal (-1),
          [.connect port baud, .readModelNumber false,
           .connect port fb, .readModelNumber true,
           .writeSerialBaudRate baud true true, .disconnect,
           .connect port baud, .readModelNumber false], s4) := by
  simp only [ladder, h1, h2, h3, h4]

theorem ladder_reconfigured {σ : Type} (vs : VnSensor σ) (fb : Nat) (port : String)
    (baud : Nat) (s s1 s2 s3 s4 : σ) (mn mn2 : String)
    (h1 : vs.readModelNumber (vs.connect port baud s) = (none, s1))
    (h2 : vs.readModelNumber (vs.connect port fb s1) = (some mn, s2))
    (h3 : vs.writeSerialBaudRate baud true s2 = (some (), s3))
    (h4 : vs.readModelNumber (vs.connect port baud (vs.disconnect s3)) = (some mn2, s4)) :
    ladder vs fb port baud s
      = (.connected,
          [.connect port baud, .readModelNumber false,
           .connect port fb, .readModelNumber true,
           .writeSerialBaudRate baud true true, .disconnect,
           .connect port baud, .readModelNumber true], s4) := by
  simp only [ladder, h1, h2, h3, h4]

theorem mainWith_fatal {σ : Type} (fb : Nat) (k : VnConstants) (vs : VnSensor σ) (prm : Params)
    (s s1 : σ) (status : Int) (t : List Event)
    (h : ladder vs fb prm.serial_port prm.serial_baud s = (.fatal status, t, s1)) :
    mainWith fb k vs prm s
      = ⟨advertised ++ t, .returned status, [.destructVnSensor], vs.destructor s1⟩ := by
  simp only [mainWith, h, leaveMain]

theorem mainWith_connected {σ : Type} (fb : Nat) (k : VnConstants) (vs : VnSensor σ)
    (prm : Params) (s s1 : σ) (t : List Event)
    (h : ladder vs fb prm.serial_port prm.serial_baud s = (.connected, t, s1)) :
    mainWith fb k vs prm s
      = ⟨advertised ++ t ++ (configureAndSpin k vs prm.async_output_rate s1).1,
          (configureAndSpin k vs prm.async_output_rate s1).2.1,
          (leaveMain vs (configureAndSpin k vs prm.async_output_rate s1).2.1
            (configureAndSpin k vs prm.async_output_rate s1).2.2).1,
          (leaveMain vs (configureAndSpin k vs prm.async_output_rate s1).2.1
            (configureAndSpin k vs prm.async_output_rate s1).2.2).2⟩ := by
  simp only [mainWith, h]

theorem truthful_query_sync (s : Line) (h : s.portBaud = some s.deviceBaud) :
    truthful.readModelNumber s = (some s.model, s) := by
  simp [truthful, Line.inSync, h]

theorem truthful_query_async (s : Line) (h : s.portBaud ≠ some s.deviceBaud) :
    truthful.readModelNumber s = (none, s) := by
  simp [truthful, Line.inSync, h]

theorem truthful_write_sync (s : Line) (baud : Nat) (w : Bool)
    (h : s.portBaud = some s.deviceBaud) :
    truthful.writeSerialBaudRate baud w s = (some (), { s with deviceBaud := baud }) := by
  simp [truthful, Line.inSync, h]

/-- The ladder on the truthful device started at the desired rate. -/
theorem ladder_truthful_at_desired (port : String) (desiredBaud fallbackBaud : Nat) (s : Line)
    (hd : s.deviceBaud = desiredBaud) :
    ladder truthful fallbackBaud port desiredBaud s
      = (.connected, [.connect port desiredBaud, .readModelNumber true],
          { s with portBaud := some desiredBaud }) :=
  ladder_first_ok truthful fallbackBaud port desiredBaud s _ s.model
    (truthful_query_sync { s with portBaud := some desiredBaud } (by simp [hd]))

/-- The ladder on the truthful device started at the fallback rate, when the
desired rate is another one. -/
theorem ladder_truthful_at_fallback (port : String) (desiredBaud fallbackBaud : Nat) (s : Line)
    (hf : s.deviceBaud = fallbackBaud) (hd : s.deviceBaud ≠ desiredBaud) :
    ladder truthful fallbackBaud port desiredBaud s
      = (.connected,
          [.connect port desiredBaud, .readModelNumber false,
           .connect port fallbackBaud, .readModelNumber true,
           .writeSerialBaudRate desiredBaud true true, .disconnect,
           .connect port desiredBaud, .readModelNumber true],
          { s with portBaud := some desiredBaud, deviceBaud := desiredBaud }) := by
  have hd2 : ¬ desiredBaud = s.deviceBaud := fun h => hd h.symm
  exact ladder_reconfigured truthful fallbackBaud port desiredBaud s
    { s with portBaud := some desiredBaud }
    { s with portBaud := some fallbackBaud }
    { s with portBaud := some fallbackBaud, deviceBaud := desiredBaud }
    { s with portBaud := some desiredBaud, deviceBaud := desiredBaud } s.model s.model
    (truthful_query_async { s with portBaud := some desiredBaud } (by simp [hd2]))
    (truthful_query_sync { s with portBaud := some fallbackBaud } (by simp [hf]))
    (truthful_write_sync { s with portBaud := some fallbackBaud } desiredBaud true (by simp [hf]))
    (truthful_query_sync { s with portBaud := some desiredBaud, deviceBaud := desiredBaud }
      (by simp))

/-! ## The start-up sequence: claims -/

/-- C4 (negotiation convergence): with a device that answers only at the baud
rate it runs at and switches rate on the baud-rate write, started at the
desired or at the fallback rate, the ladder ends connected, with the port open
at the desired rate and the device running at it.  Started at the desired rate
the operations are open and query; started at another (fallback) rate they are
open at desired, query (timeout), open at fallback, query (success), write,
close, open at desired, query (success); `main` with desired 921600 and the
device at 115200 performs exactly these after advertising. -/
theorem C4_negotiation_convergence (port : String) (desiredBaud fallbackBaud : Nat) (s : Line)
    (hstart : s.deviceBaud = desiredBaud ∨ s.deviceBaud = fallbackBaud) :
    (ladder truthful fallbackBaud port desiredBaud s).1 = .connected
    ∧ (ladder truthful fallbackBaud port desiredBaud s).2.2.portBaud = some desiredBaud
    ∧ (ladder truthful fallbackBaud port desiredBaud s).2.2.deviceBaud = desiredBaud
    ∧ (s.deviceBaud = desiredBaud →
        (ladder truthful fallbackBaud port desiredBaud s).2.1
          = [.connect port desiredBaud, .readModelNumber true])
    ∧ (s.deviceBaud ≠ desiredBaud →
        (ladder truthful fallbackBaud port desiredBaud s).2.1
          = [.connect port desiredBaud, .readModelNumber false,
             .connect port fallbackBaud, .readModelNumber true,
             .writeSerialBaudRate desiredBaud true true, .disconnect,
             .connect port desiredBaud, .readModelNumber true])
    ∧ (∀ (k : VnConstants) (rate hz : Nat) (model : String),
        advertised ++
          [.connect port 921600, .readModelNumber false,
           .connect port 115200, .readModelNumber true,
           .writeSerialBaudRate 921600 true true, .disconnect,
           .connect port 921600, .readModelNumber true]
          <+: (main k truthful ⟨port, 921600, rate⟩ ⟨115200, none, hz, model⟩).trace) := by
  have hscen : ∀ (k : VnConstants) (rate hz : Nat) (model : String),
      advertised ++
        [.connect port 921600, .readModelNumber false,
         .connect port 115200, .readModelNumber true,
         .writeSerialBaudRate 921600 true true, .disconnect,
         .connect port 921600, .readModelNumber true]
        <+: (main k truthful ⟨port, 921600, rate⟩ ⟨115200, none, hz, model⟩).trace := by
    intro k rate hz model
    have hl := ladder_truthful_at_fallback port 921600 115200 ⟨115200, none, hz, model⟩ rfl
      (by simp)
    have hm := mainWith_connected 115200 k truthful ⟨port, 921600, rate⟩
      ⟨115200, none, hz, model⟩ _ _ hl
    have hm2 : main k truthful ⟨port, 921600, rate⟩ ⟨115200, none, hz, model⟩
        = mainWith 115200 k truthful ⟨port, 921600, rate⟩ ⟨115200, none, hz, model⟩ := rfl
    rw [hm2, hm]
    exact List.prefix_append _ _
  by_cases hd : s.deviceBaud = desiredBaud
  · rw [ladder_truthful_at_desired port desiredBaud fallbackBaud s hd]
    exact ⟨rfl, rfl, hd, fun _ => rfl, fun h => absurd hd h, hscen⟩
  · have hf : s.deviceBaud = fallbackBaud := by
      rcases hstart with h | h
      · exact absurd h hd
      · exact h
    rw [ladder_truthful_at_fallback port desiredBaud fallbackBaud s hf hd]
    exact ⟨rfl, rfl, rfl, fun h => absurd h hd, fun _ => rfl, hscen⟩


/-- Witness of C4: the device at 115200 with 921600 requested. -/
theorem C4_negotiation_convergence_witness :
    (ladder truthful 115200 "/dev/ttyUSB0" 921600 (lineAt 115200)).1 = .connected
    ∧ (ladder truthful 115200 "/dev/ttyUSB0" 921600 (lineAt 115200)).2.2.portBaud = some 921600 :=
  ⟨(C4_negotiation_convergence "/dev/ttyUSB0" 921600 115200 (lineAt 115200) (Or.inr rfl)).1,
   (C4_negotiation_convergence "/dev/ttyUSB0" 921600 115200 (lineAt 115200) (Or.inr rfl)).2.1⟩

/-- Every way the ladder can end, for any sensor. -/
theorem ladder_cases {σ : Type} (vs : VnSensor σ) (fb : Nat) (port : String) (baud : Nat)
    (s : σ) :
    (∃ s1, ladder vs fb port baud s
        = (.connected, [.connect port baud, .readModelNumber true], s1))
    ∨ (∃ s1, ladder vs fb port baud s
        = (.fatal (-1),
            [.connect port baud, .readModelNumber false,
             .connect port fb, .readModelNumber false], s1))
    ∨ (∃ s1, ladder vs fb port baud s
        = (.timeout,
            [.connect port baud, .readModelNumber false,
             .connect port fb, .readModelNumber true,
             .writeSerialBaudRate baud true false], s1))
    ∨ (∃ s1, ladder vs fb port baud s
        = (.fatal (-1),
            [.connect port baud, .readModelNumber false,
             .connect port fb, .readModelNumber true,
             .writeSerialBaudRate baud true true, .disconnect,
             .connect port baud, .readModelNumber false], s1))
    ∨ (∃ s1, ladder vs fb port baud s
        = (.connected,
            [.connect port baud, .readModelNumber false,
             .connect port fb, .readModelNumber true,
             .writeSerialBaudRate baud true true, .disconnect,
             .connect port baud, .readModelNumber true], s1)) := by
  rcases h1 : vs.readModelNumber (vs.connect port baud s) with ⟨_ | mn, s1⟩
  · rcases h2 : vs.readModelNumber (vs.connect port fb s1) with ⟨_ | mn, s2⟩
    · exact Or.inr (Or.inl ⟨s2, ladder_both_timeout vs fb port baud s s1 s2 h1 h2⟩)
    · rcases h3 : vs.writeSerialBaudRate baud true s2 with ⟨_ | u, s3⟩
      · exact Or.inr (Or.inr (Or.inl
          ⟨s3, ladder_write_timeout vs fb port baud s s1 s2 s3 mn h1 h2 h3⟩))
      · rcases h4 : vs.readModelNumber (vs.connect port baud (vs.disconnect s3))
          with ⟨_ | mn2, s4⟩
        · exact Or.inr (Or.inr (Or.inr (Or.inl
            ⟨s4, ladder_third_timeout vs fb port baud s s1 s2 s3 s4 mn h1 h2 h3 h4⟩)))
        · exact Or.inr (Or.inr (Or.inr (Or.inr
            ⟨s4, ladder_reconfigured vs fb port baud s s1 s2 s3 s4 mn mn2 h1 h2 h3 h4⟩)))
  · exact Or.inl ⟨s1, ladder_first_ok vs fb port baud s s1 mn h1⟩

/-- C5 (negotiation fails closed): when the identity query at the desired
rate times out, then (a) if the query at the fallback rate times out too, the
ladder ends fatal and `main` returns the non-zero status -1 after exactly two
identity queries, with no baud-rate write, no telemetry configuration and no
callback registration; (b) if the query at the fallback rate succeeds, the
write succeeds and the third query times out, the ladder ends fatal and `main`
returns -1. -/
theorem C5_negotiation_fails_closed {σ : Type} (vs : VnSensor σ) (fallbackBaud : Nat)
    (k : VnConstants) (prm : Params) (s s1 : σ)
    (h1 : vs.readModelNumber (vs.connect prm.serial_port prm.serial_baud s) = (none, s1)) :
    (∀ s2, vs.readModelNumber (vs.connect prm.serial_port fallbackBaud s1) = (none, s2) →
      (ladder vs fallbackBaud prm.serial_port prm.serial_baud s).1 = .fatal (-1)
      ∧ (mainWith fallbackBaud k vs prm s).outcome = .returned (-1)
      ∧ (mainWith fallbackBaud k vs prm s).trace
          = advertised ++
            [.connect prm.serial_port prm.serial_baud, .readModelNumber false,
             .connect prm.serial_port fallbackBaud, .readModelNumber false]
      ∧ ((mainWith fallbackBaud k vs prm s).trace.filter Event.isQuery).length = 2
      ∧ (∀ e ∈ (mainWith fallbackBaud k vs prm s).trace,
          e.isBaudWrite = false ∧ e.isTelemetrySetup = false))
    ∧ (∀ (mn : String) (s2 s3 s4 : σ),
        vs.readModelNumber (vs.connect prm.serial_port fallbackBaud s1) = (some mn, s2) →
        vs.writeSerialBaudRate prm.serial_baud true s2 = (some (), s3) →
        vs.readModelNumber (vs.connect prm.serial_port prm.serial_baud (vs.disconnect s3))
          = (none, s4) →
        (ladder vs fallbackBaud prm.serial_port prm.serial_baud s).1 = .fatal (-1)
        ∧ (mainWith fallbackBaud k vs prm s).outcome = .returned (-1)
        ∧ (mainWith fallbackBaud k vs prm s).trace
            = advertised ++
              [.connect prm.serial_port prm.serial_baud, .readModelNumber false,
               .connect prm.serial_port fallbackBaud, .readModelNumber true,
               .writeSerialBaudRate prm.serial_baud true true, .disconnect,
               .connect prm.serial_port prm.serial_baud, .readModelNumber false])
    ∧ (-1 : Int) ≠ 0 := by
  refine ⟨?_, ?_, by decide⟩
  · intro s2 h2
    have hl := ladder_both_timeout vs fallbackBaud prm.serial_port prm.serial_baud s s1 s2 h1 h2
    have hm := mainWith_fatal fallbackBaud k vs prm s s2 (-1) _ hl
    rw [hm, hl]
    refine ⟨rfl, rfl, rfl, rfl, ?_⟩
    intro e he
    simp only [advertised, List.cons_append, List.nil_append, List.mem_cons,
      List.mem_singleton, List.not_mem_nil, or_false] at he
    rcases he with h | h | h | h | h | h | h | h | h <;> subst h <;> exact ⟨rfl, rfl⟩
  · intro mn s2 s3 s4 h2 h3 h4
    have hl := ladder_third_timeout vs fallbackBaud prm.serial_port prm.serial_baud s s1 s2 s3 s4
      mn h1 h2 h3 h4
    have hm := mainWith_fatal fallbackBaud k vs prm s s4 (-1) _ hl
    rw [hm, hl]
    exact ⟨rfl, rfl, rfl⟩

/-- Witness of C5: a device that never answers, and a device that answers
the second query and the write only. -/
theorem C5_negotiation_fails_closed_witness :
    (main vnConstants scripted defaultParams []).outcome = .returned (-1)
    ∧ (main vnConstants scripted defaultParams [none, some 0, some 0, none]).outcome
        = .returned (-1) :=
  ⟨((C5_negotiation_fails_closed scripted 115200 vnConstants defaultParams [] [] rfl).1
      [] rfl).2.1,
   ((C5_negotiation_fails_closed scripted 115200 vnConstants defaultParams
      [none, some 0, some 0, none] [some 0, some 0, none] rfl).2.1
      "VN-200" [some 0, none] [none] [] rfl rfl rfl).2.1⟩


/-- C6 as stated fails: with a device that never answers, negotiation ends in
fatal failure (`main` returns -1), yet the run starts with the five
`advertise` calls of lines 66-70, which establish the five output channels. -/
theorem C6_counterexample :
    (ladder scripted 115200 "/dev/ttyUSB0" 921600 []).1 = .fatal (-1)
    ∧ (main vnConstants scripted defaultParams []).outcome = .returned (-1)
    ∧ (main vnConstants scripted defaultParams []).trace
        = [.advertise "vectornav/IMU" 1000, .advertise "vectornav/Mag" 1000,
           .advertise "vectornav/GPS" 1000, .advertise "vectornav/Temp" 1000,
           .advertise "vectornav/Pres" 1000,
           .connect "/dev/ttyUSB0" 921600, .readModelNumber false,
           .connect "/dev/ttyUSB0" 115200, .readModelNumber false]
    ∧ ((main vnConstants scripted defaultParams []).trace.filter Event.isAdvertise).length = 5 :=
  ⟨rfl, rfl, rfl, rfl⟩

/-- C6 (amended): on every run of `main` in which the ladder ends in fatal
failure, `main` returns the non-zero status -1; the five output channels have
all been advertised before the serial port is first opened, and after that no
further channel is advertised, the telemetry stream is never configured and
the callback is never registered. -/
theorem C6_channels_advertised_before_fatal_exit {σ : Type} (vs : VnSensor σ) (fb : Nat)
    (k : VnConstants) (prm : Params) (s : σ) (status : Int)
    (h : (ladder vs fb prm.serial_port prm.serial_baud s).1 = .fatal status) :
    (mainWith fb k vs prm s).outcome = .returned status
    ∧ status = -1
    ∧ (mainWith fb k vs prm s).trace
        = advertised ++ (ladder vs fb prm.serial_port prm.serial_baud s).2.1
    ∧ (ladder vs fb prm.serial_port prm.serial_baud s).2.1.head?
        = some (.connect prm.serial_port prm.serial_baud)
    ∧ (∀ e ∈ (ladder vs fb prm.serial_port prm.serial_baud s).2.1,
        e.isAdvertise = false ∧ e.isTelemetrySetup = false) := by
  rcases ladder_cases vs fb prm.serial_port prm.serial_baud s with
    ⟨s1, hl⟩ | ⟨s1, hl⟩ | ⟨s1, hl⟩ | ⟨s1, hl⟩ | ⟨s1, hl⟩
  · rw [hl] at h
    exact absurd h (by simp)
  · have hm := mainWith_fatal fb k vs prm s s1 (-1) _ hl
    rw [hl] at h
    have hs : status = -1 := by
      simp only [LadderResult.fatal.injEq] at h
      exact h.symm
    subst hs
    rw [hm, hl]
    refine ⟨rfl, rfl, rfl, rfl, ?_⟩
    intro e he
    simp only [List.mem_cons, List.mem_singleton, List.not_mem_nil, or_false] at he
    rcases he with h | h | h | h <;> subst h <;> exact ⟨rfl, rfl⟩
  · rw [hl] at h
    exact absurd h (by simp)
  · have hm := mainWith_fatal fb k vs prm s s1 (-1) _ hl
    rw [hl] at h
    have hs : status = -1 := by
      simp only [LadderResult.fatal.injEq] at h
      exact h.symm
    subst hs
    rw [hm, hl]
    refine ⟨rfl, rfl, rfl, rfl, ?_⟩
    intro e he
    simp only [List.mem_cons, List.mem_singleton, List.not_mem_nil, or_false] at he
    rcases he with h | h | h | h | h | h | h | h <;> subst h <;> exact ⟨rfl, rfl⟩
  · rw [hl] at h
    exact absurd h (by simp)

/-- Witness of the amended C6 on a device that never answers. -/
theorem C6_channels_advertised_before_fatal_exit_witness :
    (ladder scripted 115200 defaultParams.serial_port defaultParams.serial_baud []).1
        = .fatal (-1)
    ∧ (mainWith 115200 vnConstants scripted defaultParams []).trace
        = advertised
          ++ (ladder scripted 115200 defaultParams.serial_port defaultParams.serial_baud []).2.1 :=
  ⟨rfl,
   (C6_channels_advertised_before_fatal_exit scripted 115200 vnConstants defaultParams []
      (-1) rfl).2.2.1⟩

/-- C7 on two failing inputs: a device that answers the query at the fallback
rate but not the baud-rate write (line 96, outside every `try`), and a device
that answers the first query but not the query of line 110; in both runs a
`vn::timeout` leaves `main` uncaught. -/
theorem C7_timeout_escapes_main :
    (main vnConstants scripted defaultParams [none, some 0, none]).outcome = .uncaughtTimeout
    ∧ (main vnConstants scripted defaultParams [none, some 0, none]).trace
        = advertised ++
          [.connect "/dev/ttyUSB0" 921600, .readModelNumber false,
           .connect "/dev/ttyUSB0" 115200, .readModelNumber true,
           .writeSerialBaudRate 921600 true false]
    ∧ (ladder scripted 115200 "/dev/ttyUSB0" 921600 [none, some 0, none]).1 = .timeout
    ∧ (main vnConstants scripted defaultParams [some 0, none]).outcome = .uncaughtTimeout
    ∧ (main vnConstants scripted defaultParams [some 0, none]).trace
        = advertised ++
          [.connect "/dev/ttyUSB0" 921600, .readModelNumber true, .readModelNumber false] :=
  ⟨rfl, rfl, rfl, rfl, rfl⟩

/-- On every fatal exit of `main`, for every sensor, one port handle is still
open when the process exits although `~VnSensor()` has run: both fatal exits
lie behind the reopen of line 88. -/
theorem handlesAtExit_fatal {σ : Type} (vs : VnSensor σ) (fb : Nat) (k : VnConstants)
    (prm : Params) (s : σ) (status : Int)
    (h : (ladder vs fb prm.serial_port prm.serial_baud s).1 = .fatal status) :
    (mainWith fb k vs prm s).atExit = [.destructVnSensor]
    ∧ (mainWith fb k vs prm s).handlesAtExit = ⟨1, false⟩ := by
  rcases ladder_cases vs fb prm.serial_port prm.serial_baud s with
    ⟨s1, hl⟩ | ⟨s1, hl⟩ | ⟨s1, hl⟩ | ⟨s1, hl⟩ | ⟨s1, hl⟩
  · rw [hl] at h
    exact absurd h (by simp)
  · rw [mainWith_fatal fb k vs prm s s1 (-1) _ hl]
    exact ⟨rfl, rfl⟩
  · rw [hl] at h
    exact absurd h (by simp)
  · rw [mainWith_fatal fb k vs prm s s1 (-1) _ hl]
    exact ⟨rfl, rfl⟩
  · rw [hl] at h
    exact absurd h (by simp)

/-- C10 on its failing input: with the device at 115200 and 921600 requested,
the port is opened at 115200 (line 88) right after the timed-out query, with
no `disconnect` of the handle opened at line 82: two handles are open. -/
theorem C10_fallback_open_without_close :
    (main vnConstants truthful defaultParams (lineAt 115200)).trace.take 8
        = advertised ++
          [.connect "/dev/ttyUSB0" 921600, .readModelNumber false,
           .connect "/dev/ttyUSB0" 115200]
    ∧ openHandles ((main vnConstants truthful defaultParams (lineAt 115200)).trace.take 8) 0 = 2
    ∧ (main vnConstants truthful defaultParams (lineAt 115200)).trace.drop 9
        = [.writeSerialBaudRate 921600 true true, .disconnect,
           .connect "/dev/ttyUSB0" 921600, .readModelNumber true, .readModelNumber true,
           .readAsyncDataOutputFrequency true, .writeAsyncDataOutputFrequency 200 true,
           .readAsyncDataOutputFrequency true,
           .writeBinaryOutput1 ⟨1, 4, 0x571, 0, 0, 0, 0, 0⟩ true,
           .registerAsyncPacketReceivedHandler, .spin,
           .unregisterAsyncPacketReceivedHandler, .disconnect] :=
  ⟨rfl, rfl, rfl⟩

end Vectornav
